import Mathlib

/-!
Shallow embedding of the react-native-mmkv hooks layer.

The source files embedded here are:
* `hooks.js` — `isConfigurationEqual`, `getDefaultInstance`, `useMMKV`,
  `createMMKVHook` (and the typed hooks built from it), `useMMKVObject`,
  `useMMKVListener`;
* `MMKV.d.ts` — the declaration of the `MMKV` class.  The class
  implementation itself is not part of the provided sources, so the store
  and its change-notification registry are modelled from the spec.
-/

/-- Modelled from the spec: a value stored in an MMKV instance is a member
of the union \x7bboolean, number, string\x7d (spec section 3, "Stored Value").
Numbers are modelled as integers; no claim depends on float semantics. -/
inductive StoredValue : Type where
  | bool (b : Bool)
  | num (n : Int)
  | str (s : String)
deriving DecidableEq

/-- Modelled from the spec: the key-value state of one MMKV store handle.
The `MMKV` class implementation is absent from the sources (only the
declaration `MMKV.d.ts` is present); the spec assumes the engine provides
atomic get/set/delete/contains. -/
def Store : Type := String → Option StoredValue

/-- Modelled from the spec: a store with no keys. -/
def Store.empty : Store := fun _ => none

/-- Modelled from the spec: `set(key, value)` stores the value under the key. -/
def Store.set (m : Store) (key : String) (v : StoredValue) : Store :=
  fun k => if k = key then some v else m k

/-- Modelled from the spec: `delete(key)` removes the key. -/
def Store.delete (m : Store) (key : String) : Store :=
  fun k => if k = key then none else m k

/-- Modelled from the spec: `getString(key)` returns the string value, or
absent when the key is unset or holds a value of a mismatched type. -/
def Store.getString (m : Store) (key : String) : Option String :=
  match m key with
  | some (StoredValue.str s) => some s
  | _ => none

/-- Modelled from the spec: `getNumber(key)`, absent on unset or mismatch. -/
def Store.getNumber (m : Store) (key : String) : Option Int :=
  match m key with
  | some (StoredValue.num n) => some n
  | _ => none

/-- Modelled from the spec: `getBoolean(key)`, absent on unset or mismatch. -/
def Store.getBoolean (m : Store) (key : String) : Option Bool :=
  match m key with
  | some (StoredValue.bool b) => some b
  | _ => none

/-- Modelled from the spec: `contains(key)` is true iff the key is stored. -/
def Store.contains (m : Store) (key : String) : Bool :=
  (m key).isSome

/-- A JavaScript value as it can reach the hook setters in `hooks.js`.
`ω` is the payload type of non-null objects (only the object hook ever
looks inside an object). `null` and `undefined` are distinct values. -/
inductive JSVal (ω : Type) : Type where
  | bool (b : Bool)
  | num (n : Int)
  | str (s : String)
  | undefined
  | null
  | object (o : ω)
deriving DecidableEq

/-- JavaScript `typeof` on a `JSVal`; in particular `typeof null` is
`"object"`. -/
def jsTypeof {ω : Type} : JSVal ω → String
  | JSVal.bool _ => "boolean"
  | JSVal.num _ => "number"
  | JSVal.str _ => "string"
  | JSVal.undefined => "undefined"
  | JSVal.null => "object"
  | JSVal.object _ => "object"

/-- The argument accepted by the setter of a typed hook from
`createMMKVHook`: either a plain value or a function of the previous
value (the `typeof v === 'function'` case in the source). -/
inductive SetterArg (ω : Type) : Type where
  | plain (v : JSVal ω)
  | fn (f : JSVal ω → JSVal ω)

/-- `const newValue = typeof v === 'function' ? v(valueRef.current) : v`
from `createMMKVHook`: a functional updater is resolved against the
binding's cached value (`valueRef.current`), which is a parameter here —
not a read from any store. -/
def normalizeArg {ω : Type} (cached : JSVal ω) : SetterArg ω → JSVal ω
  | SetterArg.plain v => v
  | SetterArg.fn f => f cached

/-- The coercion of a JS value of type boolean, number or string into a
stored value; `none` for every other JS value. -/
def toStored {ω : Type} : JSVal ω → Option StoredValue
  | JSVal.bool b => some (StoredValue.bool b)
  | JSVal.num n => some (StoredValue.num n)
  | JSVal.str s => some (StoredValue.str s)
  | _ => none

/-- The message of the error thrown by the default branch in
`createMMKVHook`: `MMKV: Type ${typeof newValue} is not supported!`. -/
def unsupportedMsg (t : String) : String :=
  "MMKV: Type " ++ t ++ " is not supported!"

/-- The `set` callback produced by `createMMKVHook` (hooks.js lines 56 to
72): normalize the argument against the cached value, then switch on
`typeof newValue`: number, string, boolean call `mmkv.set`; undefined
calls `mmkv.delete`; every other type throws. A thrown error is an
`Except.error` carrying the message. -/
def bindingSet {ω : Type} (mmkv : Store) (key : String) (cached : JSVal ω)
    (v : SetterArg ω) : Except String Store :=
  let newValue := normalizeArg cached v
  match newValue with
  | JSVal.num n => Except.ok (Store.set mmkv key (StoredValue.num n))
  | JSVal.str s => Except.ok (Store.set mmkv key (StoredValue.str s))
  | JSVal.bool b => Except.ok (Store.set mmkv key (StoredValue.bool b))
  | JSVal.undefined => Except.ok (Store.delete mmkv key)
  | other => Except.error (unsupportedMsg (jsTypeof other))

/-- The store as observed after a call to the `set` callback: a throw
aborts before any engine call, so on error the store is unchanged. -/
def bindingSetStore {ω : Type} (mmkv : Store) (key : String)
    (cached : JSVal ω) (v : SetterArg ω) : Store :=
  match bindingSet mmkv key cached v with
  | Except.ok m => m
  | Except.error _ => mmkv

/-- The per-binding state of a typed hook: the bound key and the cached
value (`value` / `valueRef.current` in `createMMKVHook`). -/
structure BindingState (τ : Type) : Type where
  key : String
  cached : Option τ

/-- The change listener registered by `createMMKVHook` (hooks.js lines 79
to 86): `changedKey => { if (changedKey === key) setValue(getter(mmkv, key)) }`
— on a notification for the bound key the cached value is replaced by a
fresh typed get; other keys leave the binding untouched. -/
def hookOnChange {τ : Type} (getter : Store → String → Option τ)
    (m : Store) (b : BindingState τ) (changedKey : String) : BindingState τ :=
  if changedKey = b.key then { b with cached := getter m b.key } else b

/-- The configuration object passed to the `MMKV` constructor
(`MMKVConfiguration` in `MMKV.d.ts`): id, optional path, optional
encryption key. Every field is optional here because
`isConfigurationEqual` compares the raw fields with `===`, where an
absent field reads as `undefined`. -/
structure MMKVConfiguration : Type where
  id : Option String
  path : Option String
  encryptionKey : Option String
deriving DecidableEq

/-- `isConfigurationEqual` from hooks.js (lines 17 to 20):
`if (left == null || right == null) return left == null && right == null;`
then compare `encryptionKey`, `id` and `path` with `===`. -/
def isConfigurationEqual :
    Option MMKVConfiguration → Option MMKVConfiguration → Bool
  | none, none => true
  | none, some _ => false
  | some _, none => false
  | some l, some r =>
      l.encryptionKey == r.encryptionKey && l.id == r.id && l.path == r.path

/-- A store handle (`MMKV` instance). The tag distinguishes separately
constructed handles; `new MMKV(...)` always yields a fresh tag. -/
structure Handle : Type where
  tag : Nat
deriving DecidableEq

/-- The module-level mutable state of hooks.js: the
`let defaultInstance = null` global. -/
structure GlobalState : Type where
  defaultInstance : Option Handle
deriving DecidableEq

/-- `getDefaultInstance` from hooks.js (lines 22 to 30): construct the
default `MMKV` handle on first call, cache it in the module-level global
and return the cached handle ever after. `fresh` stands for the handle a
`new MMKV()` call would construct. -/
def getDefaultInstance (g : GlobalState) (fresh : Handle) :
    Handle × GlobalState :=
  match g.defaultInstance with
  | some h => (h, g)
  | none => (fresh, { defaultInstance := some fresh })

/-- The two `useRef` cells of `useMMKV`: `instance` and
`lastConfiguration`. -/
structure UseMMKVState : Type where
  instanceCur : Option Handle
  lastConfiguration : Option MMKVConfiguration
deriving DecidableEq

/-- `useMMKV` from hooks.js (lines 36 to 47): with a null configuration it
returns the default instance; otherwise, when there is no cached handle or
the configuration differs from the last one, it stores the configuration,
constructs a fresh handle (`freshNew`) and caches it; otherwise it returns
the cached handle untouched. `freshDefault` stands for the handle
`getDefaultInstance` would construct on its first call. -/
def useMMKV (g : GlobalState) (st : UseMMKVState)
    (configuration : Option MMKVConfiguration)
    (freshDefault freshNew : Handle) :
    Handle × GlobalState × UseMMKVState :=
  match configuration with
  | none =>
      let r := getDefaultInstance g freshDefault
      (r.1, r.2, st)
  | some c =>
      if st.instanceCur = none
          ∨ isConfigurationEqual st.lastConfiguration (some c) = false then
        (freshNew, g,
          { instanceCur := some freshNew, lastConfiguration := some c })
      else
        (st.instanceCur.getD freshNew, g, st)

/-- `const mmkv = instance ?? getDefaultInstance()` in `createMMKVHook`
and `useMMKVListener`: an explicit instance is used as-is, otherwise the
default instance is resolved. -/
def resolveInstance (g : GlobalState) (inst : Option Handle)
    (fresh : Handle) : Handle × GlobalState :=
  match inst with
  | some i => (i, g)
  | none => getDefaultInstance g fresh

/-- The getter of `useMMKVObject` (hooks.js lines 146 to 149):
`if (string == null) return undefined; return JSON.parse(string)` over the
cached string of the underlying string hook. `parse` stands for
`JSON.parse`, which throws (`Except.error`) on malformed input. -/
def objectGetValue {ω : Type} (parse : String → Except String (JSVal ω))
    (cachedString : Option String) : Except String (JSVal ω) :=
  match cachedString with
  | none => Except.ok JSVal.undefined
  | some s => parse s

/-- The setter of `useMMKVObject` (hooks.js lines 150 to 158):
`if (v == null) setString(undefined) else setString(JSON.stringify(v))`,
where `v == null` is JavaScript loose equality, true exactly for `null`
and `undefined`, and `setString` is the setter of the underlying string
hook (`bindingSet`). `stringify` stands for `JSON.stringify`. -/
def objectSetValue {ω : Type} (stringify : JSVal ω → String) (m : Store)
    (key : String) (cachedString : JSVal ω) (v : JSVal ω) :
    Except String Store :=
  match v with
  | JSVal.null => bindingSet m key cachedString (SetterArg.plain JSVal.undefined)
  | JSVal.undefined => bindingSet m key cachedString (SetterArg.plain JSVal.undefined)
  | w => bindingSet m key cachedString (SetterArg.plain (JSVal.str (stringify w)))

/-- Modelled from the spec: the change-notification registry of a store
handle (`addOnValueChangedListener` in `MMKV.d.ts`; the `MMKV` class
implementation is absent from the sources). Listeners are identified by
ids; `pending` holds change notifications that are enqueued but not yet
delivered (notifications "in flight"). -/
structure Notifier : Type where
  listeners : List Nat
  nextId : Nat
  pending : List String
deriving DecidableEq

/-- Modelled from the spec: `addOnValueChangedListener` registers a new
listener and returns its id (the `Listener` handle). -/
def Notifier.add (n : Notifier) : Nat × Notifier :=
  (n.nextId,
    { n with listeners := n.listeners ++ [n.nextId], nextId := n.nextId + 1 })

/-- Modelled from the spec: `listener.remove()` deregisters the listener;
after it completes the id is no longer in the registry. -/
def Notifier.removeListener (n : Notifier) (id : Nat) : Notifier :=
  { n with listeners := n.listeners.filter (fun x => decide (x ≠ id)) }

/-- Modelled from the spec: a mutation enqueues a change notification for
its key. -/
def Notifier.enqueue (n : Notifier) (key : String) : Notifier :=
  { n with pending := n.pending ++ [key] }

/-- Modelled from the spec: delivery of every pending notification to
every listener registered at delivery time; the result lists each callback
invocation as a pair of listener id and changed key. -/
def Notifier.deliverAll (n : Notifier) : List (Nat × String) :=
  n.pending.flatMap (fun k => n.listeners.map (fun id => (id, k)))

/-- The state of `useMMKVListener` (hooks.js lines 176 to 186): the `ref`
cell holding the most recently supplied callback and the id of the
subscription created by its effect. -/
structure ListenerHookState (α : Type) : Type where
  refCurrent : String → α
  subId : Nat

/-- One render of `useMMKVListener` with callback `cb`:
`ref.current = valueChangedListener` runs on every render; the effect has
dependency array `[mmkv]`, so the subscription is torn down and re-created
only when the instance changed (`mmkvChanged`), never because the callback
changed. -/
def useMMKVListenerRender {α : Type} (st : ListenerHookState α)
    (cb : String → α) (mmkvChanged : Bool) (n : Notifier) :
    ListenerHookState α × Notifier :=
  let st1 : ListenerHookState α := { st with refCurrent := cb }
  if mmkvChanged then
    let n1 := n.removeListener st.subId
    let r := n1.add
    ({ st1 with subId := r.1 }, r.2)
  else
    (st1, n)

/-- The callback `useMMKVListener` registers:
`changedKey => { ref.current(changedKey) }` — it dereferences the ref at
invocation time. -/
def listenerHookInvoke {α : Type} (st : ListenerHookState α)
    (changedKey : String) : α :=
  st.refCurrent changedKey

lemma bindingSet_def {ω : Type} (m : Store) (key : String) (cached : JSVal ω)
    (arg : SetterArg ω) :
    bindingSet m key cached arg =
      match normalizeArg cached arg with
      | JSVal.num n => Except.ok (Store.set m key (StoredValue.num n))
      | JSVal.str s => Except.ok (Store.set m key (StoredValue.str s))
      | JSVal.bool b => Except.ok (Store.set m key (StoredValue.bool b))
      | JSVal.undefined => Except.ok (Store.delete m key)
      | other => Except.error (unsupportedMsg (jsTypeof other)) := rfl

/-- C1: the setter returned by a typed reactive hook (`useMMKVString`,
`useMMKVNumber`, `useMMKVBoolean`) first resolves a functional argument by
applying it to the binding's cached value (equivalently to passing
`f cached` as a plain value — the store is not read, as the cached value
is independent of it), then dispatches on the normalized value's
`typeof`: boolean, number or string call `set(key, value)`; undefined
calls `delete(key)`; every other type throws the unsupported-type error
synchronously. -/
theorem C1_typed_setter_dispatch {ω : Type} (m : Store) (key : String)
    (cached : JSVal ω) (arg : SetterArg ω) :
    (∀ f : JSVal ω → JSVal ω, arg = SetterArg.fn f →
        bindingSet m key cached arg
          = bindingSet m key cached (SetterArg.plain (f cached)))
    ∧ (jsTypeof (normalizeArg cached arg)
          ∈ (["boolean", "number", "string"] : List String) →
        ∃ sv, toStored (normalizeArg cached arg) = some sv
          ∧ bindingSet m key cached arg = Except.ok (Store.set m key sv))
    ∧ (normalizeArg cached arg = JSVal.undefined →
        bindingSet m key cached arg = Except.ok (Store.delete m key))
    ∧ (jsTypeof (normalizeArg cached arg)
          ∉ (["boolean", "number", "string", "undefined"] : List String) →
        bindingSet m key cached arg
          = Except.error (unsupportedMsg (jsTypeof (normalizeArg cached arg)))) := by
  refine ⟨?_, ?_, ?_, ?_⟩
  · rintro f rfl
    rfl
  · intro h
    rw [bindingSet_def]
    cases hv : normalizeArg cached arg <;>
      simp [jsTypeof, hv] at h ⊢ <;> simp [toStored]
  · intro h
    rw [bindingSet_def, h]
  · intro h
    rw [bindingSet_def]
    cases hv : normalizeArg cached arg <;> simp [jsTypeof, hv] at h ⊢

/-- Witness for C1 at a concrete input: a functional updater over a cached
string, resolved against the cache and dispatched to `set`. -/
theorem C1_witness :
    jsTypeof (normalizeArg (JSVal.str "a" : JSVal Unit)
        (SetterArg.fn (fun _ => JSVal.str "b")))
      ∈ (["boolean", "number", "string"] : List String)
    ∧ ∃ sv, toStored (normalizeArg (JSVal.str "a" : JSVal Unit)
          (SetterArg.fn (fun _ => JSVal.str "b"))) = some sv
        ∧ bindingSet Store.empty "k" (JSVal.str "a" : JSVal Unit)
            (SetterArg.fn (fun _ => JSVal.str "b"))
          = Except.ok (Store.set Store.empty "k" sv) :=
  ⟨by decide,
    (C1_typed_setter_dispatch Store.empty "k" (JSVal.str "a")
      (SetterArg.fn (fun _ => JSVal.str "b"))).2.1 (by decide)⟩

/-- C3: a value whose `typeof` is outside boolean, number, string and
undefined makes the typed hook's setter throw the unsupported-type error;
neither `set` nor `delete` runs, the store after the call is the prior
store, and a subsequent get on the key returns the prior value. -/
theorem C3_unsupported_type_store_unchanged {ω : Type} (m : Store)
    (key : String) (cached : JSVal ω) (arg : SetterArg ω)
    (h : jsTypeof (normalizeArg cached arg)
        ∉ (["boolean", "number", "string", "undefined"] : List String)) :
    bindingSet m key cached arg
      = Except.error (unsupportedMsg (jsTypeof (normalizeArg cached arg)))
    ∧ bindingSetStore m key cached arg = m
    ∧ Store.getString (bindingSetStore m key cached arg) key
        = Store.getString m key
    ∧ Store.getNumber (bindingSetStore m key cached arg) key
        = Store.getNumber m key
    ∧ Store.getBoolean (bindingSetStore m key cached arg) key
        = Store.getBoolean m key := by
  have herr : bindingSet m key cached arg
      = Except.error (unsupportedMsg (jsTypeof (normalizeArg cached arg))) := by
    rw [bindingSet_def]
    cases hv : normalizeArg cached arg <;> simp [jsTypeof, hv] at h ⊢
  have hst : bindingSetStore m key cached arg = m := by
    rw [bindingSetStore, herr]
  exact ⟨herr, hst, by rw [hst], by rw [hst], by rw [hst]⟩

/-- Witness for C3 at a concrete input: passing a plain object to the
typed setter on a store already holding the key leaves the stored value
readable unchanged. -/
theorem C3_witness :
    jsTypeof (normalizeArg (JSVal.undefined : JSVal Unit)
        (SetterArg.plain (JSVal.object ())))
      ∉ (["boolean", "number", "string", "undefined"] : List String)
    ∧ bindingSet (Store.set Store.empty "k" (StoredValue.num 7)) "k"
        (JSVal.undefined : JSVal Unit) (SetterArg.plain (JSVal.object ()))
      = Except.error (unsupportedMsg "object")
    ∧ Store.getNumber
        (bindingSetStore (Store.set Store.empty "k" (StoredValue.num 7)) "k"
          (JSVal.undefined : JSVal Unit) (SetterArg.plain (JSVal.object ())))
        "k"
      = Store.getNumber (Store.set Store.empty "k" (StoredValue.num 7)) "k" :=
  ⟨by decide,
    (C3_unsupported_type_store_unchanged
      (Store.set Store.empty "k" (StoredValue.num 7)) "k" JSVal.undefined
      (SetterArg.plain (JSVal.object ())) (by decide)).1,
    (C3_unsupported_type_store_unchanged
      (Store.set Store.empty "k" (StoredValue.num 7)) "k" JSVal.undefined
      (SetterArg.plain (JSVal.object ())) (by decide)).2.2.2.1⟩

/-- C10: `null` passed to a typed hook's setter hits the default branch
(`typeof null` is `"object"`), throwing the unsupported-type error with
the store unchanged — it does not delete the key; `null` passed to the
object hook's setter takes the `v == null` branch and deletes the key,
exactly as `undefined` would. -/
theorem C10_null_typed_throws_object_deletes {ω : Type}
    (stringify : JSVal ω → String) (m : Store) (key : String)
    (cached cachedString : JSVal ω) :
    bindingSet m key cached (SetterArg.plain JSVal.null)
      = Except.error (unsupportedMsg "object")
    ∧ bindingSetStore m key cached (SetterArg.plain JSVal.null) = m
    ∧ objectSetValue stringify m key cachedString JSVal.null
        = Except.ok (Store.delete m key)
    ∧ objectSetValue stringify m key cachedString JSVal.undefined
        = Except.ok (Store.delete m key)
    ∧ Store.contains (Store.delete m key) key = false := by
  refine ⟨rfl, rfl, rfl, rfl, ?_⟩
  simp [Store.contains, Store.delete]

/-- Witness for C10 at a concrete input. -/
theorem C10_witness :
    bindingSet Store.empty "k" (JSVal.undefined : JSVal Unit)
        (SetterArg.plain JSVal.null)
      = Except.error (unsupportedMsg "object")
    ∧ objectSetValue (fun _ => "x") Store.empty "k"
        (JSVal.undefined : JSVal Unit) JSVal.null
      = Except.ok (Store.delete Store.empty "k") :=
  ⟨(C10_null_typed_throws_object_deletes (fun _ => "x") Store.empty "k"
      JSVal.undefined JSVal.undefined).1,
    (C10_null_typed_throws_object_deletes (fun _ => "x") Store.empty "k"
      JSVal.undefined JSVal.undefined).2.2.1⟩

/-- C2: when a change notification whose key equals the bound key reaches
a typed hook's listener, the binding's cached value becomes the result of
a fresh typed get on the bound store — for every binding, so also for the
binding that performed the mutation itself; consequently, after a write
through binding A produced store `m2`, any binding B on the same key
whose listener receives the notification caches the fresh value without
writing, and for a string write of `s` the fresh value is `some s`. -/
theorem C2_notification_refreshes_cache {τ ω : Type}
    (getter : Store → String → Option τ) (m m2 : Store) (key : String)
    (cachedA : JSVal ω) (argA : SetterArg ω) (bB : BindingState τ)
    (hkey : bB.key = key)
    (_hwrite : bindingSet m key cachedA argA = Except.ok m2) :
    (hookOnChange getter m2 bB key).cached = getter m2 key
    ∧ (∀ b : BindingState τ, b.key = key →
        (hookOnChange getter m2 b key).cached = getter m2 key)
    ∧ (∀ (s : String) (bS : BindingState String), bS.key = key →
        (hookOnChange Store.getString
            (bindingSetStore m key cachedA (SetterArg.plain (JSVal.str s)))
            bS key).cached
          = some s) := by
  have hgen : ∀ b : BindingState τ, b.key = key →
      (hookOnChange getter m2 b key).cached = getter m2 key := by
    intro b hb
    simp [hookOnChange, hb]
  refine ⟨hgen bB hkey, hgen, ?_⟩
  intro s bS hbS
  have hstr : bindingSetStore m key cachedA (SetterArg.plain (JSVal.str s))
      = Store.set m key (StoredValue.str s) := rfl
  simp [hookOnChange, hbS, hstr, Store.getString, Store.set]

/-- Witness for C2 at a concrete input: binding A writes the string `"v"`
to key `"k"`; binding B (which performed no write) observes `"v"` in its
cache after the notification. -/
theorem C2_witness :
    (hookOnChange Store.getString
        (Store.set Store.empty "k" (StoredValue.str "v"))
        (BindingState.mk "k" (none : Option String)) "k").cached
      = Store.getString (Store.set Store.empty "k" (StoredValue.str "v")) "k"
    ∧ (hookOnChange Store.getString
        (bindingSetStore Store.empty "k" (JSVal.undefined : JSVal Unit)
          (SetterArg.plain (JSVal.str "v")))
        (BindingState.mk "k" (none : Option String)) "k").cached
      = some "v" :=
  ⟨(C2_notification_refreshes_cache Store.getString Store.empty
      (Store.set Store.empty "k" (StoredValue.str "v")) "k"
      (JSVal.undefined : JSVal Unit) (SetterArg.plain (JSVal.str "v"))
      (BindingState.mk "k" (none : Option String)) rfl rfl).1,
    (C2_notification_refreshes_cache Store.getString Store.empty
      (Store.set Store.empty "k" (StoredValue.str "v")) "k"
      (JSVal.undefined : JSVal Unit) (SetterArg.plain (JSVal.str "v"))
      (BindingState.mk "k" (none : Option String)) rfl rfl).2.2 "v"
      (BindingState.mk "k" (none : Option String)) rfl⟩

/-- C4: `isConfigurationEqual` returns true exactly when both
configurations are absent, or both are present with equal id, path and
encryption key (an absent configuration is never equal to a present one);
and `useMMKV`, given a configuration and an existing cached handle,
returns the cached handle with its refs untouched when the configuration
compares equal to the previously supplied one, and otherwise constructs
and caches the fresh handle. -/
theorem C4_configuration_equality_and_reuse :
    (∀ a b : Option MMKVConfiguration,
        isConfigurationEqual a b = true ↔
          ((a = none ∧ b = none)
            ∨ ∃ l r, a = some l ∧ b = some r
                ∧ l.id = r.id ∧ l.path = r.path
                ∧ l.encryptionKey = r.encryptionKey))
    ∧ (∀ (g : GlobalState) (st : UseMMKVState) (c : MMKVConfiguration)
          (h freshDefault freshNew : Handle),
        st.instanceCur = some h →
        isConfigurationEqual st.lastConfiguration (some c) = true →
        useMMKV g st (some c) freshDefault freshNew = (h, g, st))
    ∧ (∀ (g : GlobalState) (st : UseMMKVState) (c : MMKVConfiguration)
          (freshDefault freshNew : Handle),
        isConfigurationEqual st.lastConfiguration (some c) = false →
        useMMKV g st (some c) freshDefault freshNew
          = (freshNew, g,
              { instanceCur := some freshNew,
                lastConfiguration := some c })) := by
  refine ⟨?_, ?_, ?_⟩
  · intro a b
    cases a with
    | none =>
        cases b <;> simp [isConfigurationEqual]
    | some l =>
        cases b with
        | none => simp [isConfigurationEqual]
        | some r =>
            simp only [isConfigurationEqual, Bool.and_eq_true, beq_iff_eq]
            constructor
            · rintro ⟨⟨hk, hi⟩, hp⟩
              exact Or.inr ⟨l, r, rfl, rfl, hi, hp, hk⟩
            · rintro (⟨h1, _⟩ | ⟨l', r', hl, hr, hi, hp, hk⟩)
              · exact absurd h1 (by simp)
              · cases hl; cases hr; exact ⟨⟨hk, hi⟩, hp⟩
  · intro g st c h freshDefault freshNew hcur heq
    simp [useMMKV, hcur, heq]
  · intro g st c freshDefault freshNew heq
    simp [useMMKV, heq]

/-- Witness for C4 at concrete inputs: equality of two present equal
configurations; reuse of the cached handle under an equal configuration;
a fresh handle under a different configuration. -/
theorem C4_witness :
    (isConfigurationEqual
        (some (MMKVConfiguration.mk (some "a") none none))
        (some (MMKVConfiguration.mk (some "a") none none)) = true ↔
      (((some (MMKVConfiguration.mk (some "a") none none)
            : Option MMKVConfiguration) = none
          ∧ (some (MMKVConfiguration.mk (some "a") none none)
                : Option MMKVConfiguration) = none)
        ∨ ∃ l r, (some (MMKVConfiguration.mk (some "a") none none)
              : Option MMKVConfiguration) = some l
            ∧ (some (MMKVConfiguration.mk (some "a") none none)
                : Option MMKVConfiguration) = some r
            ∧ l.id = r.id ∧ l.path = r.path
            ∧ l.encryptionKey = r.encryptionKey))
    ∧ useMMKV (GlobalState.mk none)
        (UseMMKVState.mk (some (Handle.mk 5))
          (some (MMKVConfiguration.mk (some "a") none none)))
        (some (MMKVConfiguration.mk (some "a") none none))
        (Handle.mk 0) (Handle.mk 1)
      = (Handle.mk 5, GlobalState.mk none,
          UseMMKVState.mk (some (Handle.mk 5))
            (some (MMKVConfiguration.mk (some "a") none none)))
    ∧ useMMKV (GlobalState.mk none)
        (UseMMKVState.mk (some (Handle.mk 5))
          (some (MMKVConfiguration.mk (some "a") none none)))
        (some (MMKVConfiguration.mk (some "b") none none))
        (Handle.mk 0) (Handle.mk 1)
      = (Handle.mk 1, GlobalState.mk none,
          UseMMKVState.mk (some (Handle.mk 1))
            (some (MMKVConfiguration.mk (some "b") none none))) :=
  ⟨(C4_configuration_equality_and_reuse.1 _ _),
    C4_configuration_equality_and_reuse.2.1 (GlobalState.mk none)
      (UseMMKVState.mk (some (Handle.mk 5))
        (some (MMKVConfiguration.mk (some "a") none none)))
      (MMKVConfiguration.mk (some "a") none none)
      (Handle.mk 5) (Handle.mk 0) (Handle.mk 1) rfl (by decide),
    C4_configuration_equality_and_reuse.2.2 (GlobalState.mk none)
      (UseMMKVState.mk (some (Handle.mk 5))
        (some (MMKVConfiguration.mk (some "a") none none)))
      (MMKVConfiguration.mk (some "b") none none)
      (Handle.mk 0) (Handle.mk 1) (by decide)⟩

/-- C6: the default store handle is created lazily at most once: the
first `getDefaultInstance` call constructs it and stores it in the
module-level global; every later call — whatever handle a fresh
construction would have produced — returns that same handle with the
global unchanged; `useMMKV` with no configuration and the hooks'
`instance ?? getDefaultInstance()` resolution return the same singleton;
nothing ever resets the global (no teardown exists in the source). -/
theorem C6_default_instance_singleton :
    (∀ fresh : Handle,
        getDefaultInstance (GlobalState.mk none) fresh
          = (fresh, GlobalState.mk (some fresh)))
    ∧ (∀ (g : GlobalState) (h fresh : Handle),
        g.defaultInstance = some h →
        getDefaultInstance g fresh = (h, g))
    ∧ (∀ (fresh fresh2 : Handle),
        getDefaultInstance
          (getDefaultInstance (GlobalState.mk none) fresh).2 fresh2
          = (fresh, GlobalState.mk (some fresh)))
    ∧ (∀ (g : GlobalState) (st : UseMMKVState) (h fd fn : Handle),
        g.defaultInstance = some h →
        useMMKV g st none fd fn = (h, g, st))
    ∧ (∀ (g : GlobalState) (h fresh : Handle),
        g.defaultInstance = some h →
        resolveInstance g none fresh = (h, g))
    ∧ (∀ (g : GlobalState) (i fresh : Handle),
        resolveInstance g (some i) fresh = (i, g)) := by
  refine ⟨fun fresh => rfl, ?_, fun fresh fresh2 => rfl, ?_, ?_, fun g i fresh => rfl⟩
  · intro g h fresh hg
    cases g
    cases hg
    rfl
  · intro g st h fd fn hg
    cases g
    cases hg
    rfl
  · intro g h fresh hg
    cases g
    cases hg
    rfl

/-- Witness for C6 at concrete inputs: the first call constructs handle 3
and caches it; a second call with a different fresh handle still returns
handle 3; `useMMKV` without a configuration and the hooks' instance
resolution agree. -/
theorem C6_witness :
    getDefaultInstance (GlobalState.mk none) (Handle.mk 3)
      = (Handle.mk 3, GlobalState.mk (some (Handle.mk 3)))
    ∧ getDefaultInstance (GlobalState.mk (some (Handle.mk 3))) (Handle.mk 9)
      = (Handle.mk 3, GlobalState.mk (some (Handle.mk 3)))
    ∧ useMMKV (GlobalState.mk (some (Handle.mk 3)))
        (UseMMKVState.mk none none) none (Handle.mk 9) (Handle.mk 10)
      = (Handle.mk 3, GlobalState.mk (some (Handle.mk 3)),
          UseMMKVState.mk none none)
    ∧ resolveInstance (GlobalState.mk (some (Handle.mk 3))) none (Handle.mk 9)
      = (Handle.mk 3, GlobalState.mk (some (Handle.mk 3))) :=
  ⟨C6_default_instance_singleton.1 (Handle.mk 3),
    C6_default_instance_singleton.2.1 (GlobalState.mk (some (Handle.mk 3)))
      (Handle.mk 3) (Handle.mk 9) rfl,
    C6_default_instance_singleton.2.2.2.1
      (GlobalState.mk (some (Handle.mk 3))) (UseMMKVState.mk none none)
      (Handle.mk 3) (Handle.mk 9) (Handle.mk 10) rfl,
    C6_default_instance_singleton.2.2.2.2.1
      (GlobalState.mk (some (Handle.mk 3))) (Handle.mk 3) (Handle.mk 9) rfl⟩

/-- C5: writing an object `j` through the object binding's setter stores
`stringify` of it through the string binding, and reading back through the
getter (over the refreshed cached string) parses it back to a value equal
to `j` whenever `parse` inverts `stringify` on it (the JSON round trip);
writing `undefined` deletes the key, after which the getter yields
`undefined` and `contains` is false. -/
theorem C5_object_roundtrip {ω : Type} (stringify : JSVal ω → String)
    (parse : String → Except String (JSVal ω)) (m : Store) (key : String)
    (cachedString : JSVal ω) (j : ω)
    (hround : parse (stringify (JSVal.object j))
        = Except.ok (JSVal.object j)) :
    objectSetValue stringify m key cachedString (JSVal.object j)
      = Except.ok
          (Store.set m key (StoredValue.str (stringify (JSVal.object j))))
    ∧ Store.getString
        (Store.set m key (StoredValue.str (stringify (JSVal.object j)))) key
      = some (stringify (JSVal.object j))
    ∧ objectGetValue parse
        (Store.getString
          (Store.set m key (StoredValue.str (stringify (JSVal.object j))))
          key)
      = Except.ok (JSVal.object j)
    ∧ objectSetValue stringify m key cachedString JSVal.undefined
        = Except.ok (Store.delete m key)
    ∧ Store.getString (Store.delete m key) key = none
    ∧ objectGetValue parse (Store.getString (Store.delete m key) key)
        = Except.ok JSVal.undefined
    ∧ Store.contains (Store.delete m key) key = false := by
  have hget : Store.getString
      (Store.set m key (StoredValue.str (stringify (JSVal.object j)))) key
      = some (stringify (JSVal.object j)) := by
    simp [Store.getString, Store.set]
  have hdel : Store.getString (Store.delete m key) key = none := by
    simp [Store.getString, Store.delete]
  refine ⟨rfl, hget, ?_, rfl, hdel, ?_, ?_⟩
  · rw [hget]
    simpa [objectGetValue] using hround
  · rw [hdel]
    rfl
  · simp [Store.contains, Store.delete]

/-- Witness for C5 at a concrete input: a toy serializer over `Nat`
payloads for which parsing inverts printing at the written object. -/
theorem C5_witness :
    (fun s => if s = "obj 1" then Except.ok (JSVal.object 1)
        else Except.error "SyntaxError")
      ((fun v => match v with
          | JSVal.object n => "obj " ++ Nat.repr n
          | _ => "other") (JSVal.object (1 : Nat)))
      = Except.ok (JSVal.object (1 : Nat))
    ∧ objectGetValue
        (fun s => if s = "obj 1" then Except.ok (JSVal.object 1)
            else Except.error "SyntaxError")
        (Store.getString
          (Store.set Store.empty "k"
            (StoredValue.str
              ((fun v => match v with
                  | JSVal.object n => "obj " ++ Nat.repr n
                  | _ => "other") (JSVal.object (1 : Nat)))))
          "k")
      = Except.ok (JSVal.object (1 : Nat))
    ∧ Store.contains (Store.delete Store.empty "k") "k" = false :=
  ⟨by rfl,
    (C5_object_roundtrip
      (fun v => match v with
        | JSVal.object n => "obj " ++ Nat.repr n
        | _ => "other")
      (fun s => if s = "obj 1" then Except.ok (JSVal.object 1)
          else Except.error "SyntaxError")
      Store.empty "k" JSVal.undefined 1 (by rfl)).2.2.1,
    (C5_object_roundtrip
      (fun v => match v with
        | JSVal.object n => "obj " ++ Nat.repr n
        | _ => "other")
      (fun s => if s = "obj 1" then Except.ok (JSVal.object 1)
          else Except.error "SyntaxError")
      Store.empty "k" JSVal.undefined 1 (by rfl)).2.2.2.2.2.2⟩

/-- C7: when the cached string is present and `parse` (JSON parsing)
fails on it, the object binding's getter propagates that error to the
caller; and provided `parse` never yields `undefined` (valid JSON has no
undefined), the getter yields `undefined` exactly when the underlying
string is absent — a parse failure is never silently treated as absent. -/
theorem C7_parse_error_propagates {ω : Type}
    (parse : String → Except String (JSVal ω))
    (hno : ∀ s : String, parse s ≠ Except.ok JSVal.undefined) :
    (∀ (s : String) (e : String), parse s = Except.error e →
        objectGetValue parse (some s) = Except.error e)
    ∧ (∀ c : Option String,
        objectGetValue parse c = Except.ok JSVal.undefined ↔ c = none) := by
  constructor
  · intro s e hp
    simpa [objectGetValue] using hp
  · intro c
    cases c with
    | none => simp [objectGetValue]
    | some s =>
        simp only [objectGetValue]
        constructor
        · intro h
          exact absurd h (hno s)
        · intro h
          cases h

/-- Witness for C7 at a concrete input: a parser that rejects everything;
the getter surfaces its error on a present string and yields `undefined`
on an absent one. -/
theorem C7_witness :
    objectGetValue
        (fun _ => (Except.error "SyntaxError" : Except String (JSVal Unit)))
        (some "not json")
      = Except.error "SyntaxError"
    ∧ (objectGetValue
          (fun _ => (Except.error "SyntaxError" : Except String (JSVal Unit)))
          none
        = Except.ok JSVal.undefined ↔ (none : Option String) = none) :=
  ⟨(C7_parse_error_propagates
      (fun _ => (Except.error "SyntaxError" : Except String (JSVal Unit)))
      (fun _ h => Except.noConfusion h)).1 "not json" "SyntaxError" rfl,
    (C7_parse_error_propagates
      (fun _ => (Except.error "SyntaxError" : Except String (JSVal Unit)))
      (fun _ h => Except.noConfusion h)).2 none⟩

/-- C8: once `remove()` on a listener's handle has completed, the
listener's id is out of the registry, and delivery of every pending
notification — those already in flight at cancellation time and those
enqueued by mutations after it — never invokes that listener's callback. -/
theorem C8_cancelled_listener_never_fires (n : Notifier) (id : Nat) :
    id ∉ (Notifier.removeListener n id).listeners
    ∧ (∀ p ∈ Notifier.deliverAll (Notifier.removeListener n id), p.1 ≠ id)
    ∧ (∀ key : String,
        ∀ p ∈ Notifier.deliverAll
            (Notifier.enqueue (Notifier.removeListener n id) key),
          p.1 ≠ id) := by
  have hreg : ∀ x ∈ (Notifier.removeListener n id).listeners, x ≠ id := by
    intro x hx
    simp only [Notifier.removeListener, List.mem_filter,
      decide_eq_true_eq] at hx
    exact hx.2
  refine ⟨fun h => hreg id h rfl, ?_, ?_⟩
  · intro p hp
    simp only [Notifier.deliverAll, List.mem_flatMap, List.mem_map] at hp
    obtain ⟨k, -, x, hx, hpx⟩ := hp
    cases hpx
    exact hreg x hx
  · intro key p hp
    simp only [Notifier.deliverAll, Notifier.enqueue, List.mem_flatMap,
      List.mem_map] at hp
    obtain ⟨k, -, x, hx, hpx⟩ := hp
    cases hpx
    exact hreg x hx

/-- Witness for C8 at a concrete input: listener 1 is cancelled while a
notification for key `"k"` is still pending; delivery (also after a
further mutation of `"k2"`) never invokes listener 1. -/
theorem C8_witness :
    (1 ∉ (Notifier.removeListener (Notifier.mk [0, 1] 2 ["k"]) 1).listeners)
    ∧ ((1, "k") ∉ Notifier.deliverAll
        (Notifier.removeListener (Notifier.mk [0, 1] 2 ["k"]) 1))
    ∧ ((1, "k2") ∉ Notifier.deliverAll
        (Notifier.enqueue
          (Notifier.removeListener (Notifier.mk [0, 1] 2 ["k"]) 1) "k2")) :=
  ⟨(C8_cancelled_listener_never_fires (Notifier.mk [0, 1] 2 ["k"]) 1).1,
    fun h =>
      (C8_cancelled_listener_never_fires (Notifier.mk [0, 1] 2 ["k"]) 1).2.1
        (1, "k") h rfl,
    fun h =>
      (C8_cancelled_listener_never_fires (Notifier.mk [0, 1] 2 ["k"]) 1).2.2
        "k2" (1, "k2") h rfl⟩

/-- C9: a render of `useMMKVListener` with a new callback on the same
store handle keeps the existing subscription (same id, notifier
untouched) and only updates the ref, so every subsequent notification
invokes the most recently supplied callback, whatever callback the ref
held at subscribe time. -/
theorem C9_listener_callback_swap {α : Type} (st : ListenerHookState α)
    (cb : String → α) (n : Notifier) :
    (useMMKVListenerRender st cb false n).1.subId = st.subId
    ∧ (useMMKVListenerRender st cb false n).2 = n
    ∧ (∀ k : String,
        listenerHookInvoke (useMMKVListenerRender st cb false n).1 k = cb k) :=
  ⟨rfl, rfl, fun _ => rfl⟩

/-- Witness for C9 at a concrete input: the subscription id survives the
callback swap and the delivered notification reaches the new callback. -/
theorem C9_witness :
    (useMMKVListenerRender
        (ListenerHookState.mk (fun _ => (0 : Nat)) 7)
        (fun k => k.length) false (Notifier.mk [7] 8 [])).1.subId = 7
    ∧ listenerHookInvoke
        (useMMKVListenerRender
          (ListenerHookState.mk (fun _ => (0 : Nat)) 7)
          (fun k => k.length) false (Notifier.mk [7] 8 [])).1 "key"
      = "key".length :=
  ⟨(C9_listener_callback_swap
      (ListenerHookState.mk (fun _ => (0 : Nat)) 7)
      (fun k => k.length) (Notifier.mk [7] 8 [])).1,
    (C9_listener_callback_swap
      (ListenerHookState.mk (fun _ => (0 : Nat)) 7)
      (fun k => k.length) (Notifier.mk [7] 8 [])).2.2 "key"⟩
